import Mathlib

/-!
Verification development for the job dispatch and processing pipeline of the
ai-docgen repository.

The embedding below is a shallow model of the TypeScript source:

* functions-api/src/queue/processor.ts
  (processPubSubQueue, retryFailedQueueItems)
* functions-api/src/webhooks/github.ts
  (verifyGitHubSignature, githubWebhook, handlePullRequestEvent,
   handlePushEvent, publishJobToPubSub)
* functions-worker/src/index.ts
  (analyzeRepoWorker, processPushAnalysis, processInitialIngestion,
   generateMockFileContent)

Modelling conventions:

* Firestore documents become Lean structures; a collection becomes an
  association list from document id to record.  Fields a document may lack
  (Firestore has no schema) become Option fields; a missing numeric field
  read with a destructuring default of 0 becomes a Nat that starts at 0.
* Timestamps (createdAt, updatedAt, startedAt, completedAt, publishedAt,
  dispatchedAt) carry no information the claims depend on and are omitted,
  except lastAttemptAt, which the retry sweeper queries; time is a Nat.
* External collaborators (the Pub/Sub bus, the GitHub ingestion service, the
  analysis service, the AI service, HMAC-SHA256) are parameters of the
  definitions: a publish attempt is an abstract Except String String giving
  either the bus message id or the thrown error message; per-file analysis is
  an abstract String to String to Except String FileAnalysis function, and so
  on.  Each definition is the source control flow over those parameters.
* A Firestore update on an existing document is an in-place record update.
  The worker checks document existence exactly where the source observes it
  (jobDoc.get followed by the not-found throw); the publisher and sweeper
  update documents that exist by construction, modelled by jobsAdjust, which
  leaves the store unchanged when the id is absent.
-/

/-! ## Job store

A document of the jobs collection.  Created by the webhook intake
(handlePullRequestEvent / handlePushEvent) with status queued, mutated by the
queue processor (dispatched / failed) and by the worker (in-progress /
completed / failed).  resultId and error start absent: the intake writes
neither field.
-/

structure Job where
  jobType : String
  status : String
  repoFullName : String := ("")
  repoId : String := ("")
  prNumber : Option Nat := none
  prAction : Option String := none
  headSha : Option String := none
  headRef : Option String := none
  baseRef : Option String := none
  ref : Option String := none
  beforeSha : Option String := none
  afterSha : Option String := none
  changedFiles : Option (List String) := none
  commitCount : Option Nat := none
  resultId : Option String := none
  error : Option String := none
deriving DecidableEq, Repr

/-- Read a document of the jobs collection by id. -/
def jobsGet (jobs : List (String × Job)) (id : String) : Option Job :=
  (jobs.find? (fun p => decide (p.1 = id))).map (fun p => p.2)

/-- Partial update of the document with the given id, leaving every other
document unchanged.  When the id is absent the store is unchanged (the source
only issues such updates for documents that exist). -/
def jobsAdjust (jobs : List (String × Job)) (id : String) (f : Job → Job) :
    List (String × Job) :=
  jobs.map (fun p => if p.1 = id then (p.1, f p.2) else p)

/-- Firestore document update: rejects when the document does not exist,
which the worker surfaces as a thrown error. -/
def jobsUpdate (jobs : List (String × Job)) (id : String) (f : Job → Job) :
    Except String (List (String × Job)) :=
  match jobsGet jobs id with
  | some _ => Except.ok (jobsAdjust jobs id f)
  | none => Except.error (("No document to update: jobs/") ++ id)

/-! ## Message bus payload

The flat job descriptor written into a pubsubQueue entry by
publishJobToPubSub and destructured by the worker
(const braces jobId, jobType, repoId, prNumber, changedFiles braces =
payload).  PR jobs carry prNumber, push jobs carry changedFiles.
-/

structure JobMessage where
  jobId : String
  jobType : String
  repoId : String
  prNumber : Option Nat := none
  changedFiles : Option (List String) := none
deriving DecidableEq, Repr

/-! ## Outbound queue relay (pubsubQueue collection)

A RelayEntry in the terms of the specification.  publishJobToPubSub creates
the document with only topic, data, published=false and createdAt; the
remaining fields are absent, modelled by their neutral defaults: a missing
retryCount destructures to 0 and FieldValue.increment on a missing field
writes 1, so Nat starting at 0 is faithful, and a missing permanentlyFailed
boolean is falsy everywhere it is read.
-/

structure QueueItem where
  topic : String
  data : JobMessage
  published : Bool
  messageId : Option String := none
  error : Option String := none
  retryCount : Nat := 0
  permanentlyFailed : Bool := false
  lastAttemptAt : Option Nat := none
deriving DecidableEq, Repr

/-- The pubsubQueue document created by publishJobToPubSub in
functions-api/src/webhooks/github.ts. -/
def newQueueItem (topic : String) (data : JobMessage) : QueueItem :=
  { topic := topic, data := data, published := false }

/-! ## Reactive publisher

processPubSubQueue in functions-api/src/queue/processor.ts, the Firestore
onCreate trigger of the pubsubQueue collection.  The try block (topic
create-if-absent followed by topicRef.publish) is summarised by the abstract
publishOutcome: ok carries the bus message id, error carries the message of
the thrown exception.  On success the entry is marked published and the
referenced job is advanced to dispatched; on failure the entry records the
error, lastAttemptAt and an incremented retryCount, and the referenced job is
set to status failed with the error message — the source does this for every
failure, without classifying it as transient or permanent — and the error is
rethrown for the Cloud Functions retry mechanism (the Except component).
-/

def processPubSubQueue (publishOutcome : Except String String) (now : Nat)
    (item : QueueItem) (jobs : List (String × Job)) :
    QueueItem × List (String × Job) × Except String Unit :=
  if item.published then (item, jobs, Except.ok ()) else
  match publishOutcome with
  | Except.ok messageId =>
    let item2 := { item with published := true, messageId := some messageId }
    let jobs2 :=
      if item.data.jobId ≠ ("") then
        jobsAdjust jobs item.data.jobId
          (fun j => { j with status := ("dispatched") })
      else jobs
    (item2, jobs2, Except.ok ())
  | Except.error msg =>
    let item2 := { item with error := some msg, lastAttemptAt := some now,
                             retryCount := item.retryCount + 1 }
    let jobs2 :=
      if item.data.jobId ≠ ("") then
        jobsAdjust jobs item.data.jobId
          (fun j => { j with status := ("failed"), error := some msg })
      else jobs
    (item2, jobs2, Except.error msg)

/-! ## Retry sweeper

retryFailedQueueItems in functions-api/src/queue/processor.ts, scheduled
every 5 minutes.
-/

/-- The Firestore query of the sweeper: published == false, error != null
(field present and non-null), lastAttemptAt < fiveMinutesAgo (field present
and below the cutoff).  The query has no condition on permanentlyFailed. -/
def sweepQueryMatches (cutoff : Nat) (e : QueueItem) : Bool :=
  !e.published && e.error.isSome &&
    (match e.lastAttemptAt with
     | some t => decide (t < cutoff)
     | none => false)

/-- The batch a sweep run processes: the matching entries, limited to 10. -/
def sweepSelect (cutoff : Nat) (items : List QueueItem) : List QueueItem :=
  (items.filter (sweepQueryMatches cutoff)).take 10

/-- The per-entry body of the sweeper loop.  When retryCount has reached 3
the entry is marked permanentlyFailed and no publish is attempted (the
Boolean component records whether a publish attempt was made); otherwise the
entry payload is published again: success marks it published and deletes the
error field, failure records the new error queue and attempt time and
increments retryCount. -/
def sweepProcessItem (publishOutcome : Except String String) (now : Nat)
    (e : QueueItem) : QueueItem × Bool :=
  if e.retryCount ≥ 3 then
    ({ e with permanentlyFailed := true }, false)
  else
    match publishOutcome with
    | Except.ok messageId =>
      ({ e with published := true, messageId := some messageId,
                error := none }, true)
    | Except.error msg =>
      ({ e with error := some msg, lastAttemptAt := some now,
                retryCount := e.retryCount + 1 }, true)

/-- n consecutive sweeper visits to one entry, with the bus outcome and the
clock of each visit supplied by the environment; returns the final entry and
the total number of publish attempts made. -/
def sweepRun (outcome : Nat → Except String String) (clock : Nat → Nat) :
    Nat → QueueItem → QueueItem × Nat
  | 0, e => (e, 0)
  | Nat.succ n, e =>
    let step := sweepProcessItem (outcome n) (clock n) e
    let rest := sweepRun outcome clock n step.1
    (rest.1, (if step.2 then 1 else 0) + rest.2)

/-! ## Webhook intake (functions-api/src/webhooks/github.ts) -/

/-- The pull_request field of a GitHub webhook payload. -/
structure PullRequestInfo where
  number : Nat
  state : String
  headSha : String
  headRef : String
  baseRef : String
deriving DecidableEq, Repr

/-- One commit of a push payload. -/
structure CommitInfo where
  id : String
  message : String
  modified : List String
  added : List String
  removed : List String
deriving DecidableEq, Repr

/-- The repository field of a webhook payload. -/
structure RepositoryInfo where
  id : Nat
  name : String
  fullName : String
  ownerLogin : String
deriving DecidableEq, Repr

/-- GitHubWebhookPayload: the parsed request body.  Optional fields of the
TypeScript interface are Option; an absent commits array is none (the source
reads it only through the optional-chaining forEach and length, so none
behaves as the empty list). -/
structure WebhookPayload where
  action : Option String := none
  pullRequest : Option PullRequestInfo := none
  repository : RepositoryInfo
  senderLogin : String
  ref : Option String := none
  beforeSha : Option String := none
  afterSha : Option String := none
  commits : Option (List CommitInfo) := none
deriving DecidableEq, Repr

/-- The inbound HTTP request: method, the three GitHub headers and the parsed
body.  A header may be absent. -/
structure WebhookRequest where
  method : String
  event : Option String := none
  signature : Option String := none
  deliveryId : Option String := none
  body : WebhookPayload
deriving DecidableEq, Repr

/-- The document written into the webhookEvents collection for every request
that passes signature verification. -/
structure WebhookEventRecord where
  deliveryId : Option String
  event : Option String
  repoFullName : String
  repoId : Nat
  action : Option String
  processed : Bool
deriving DecidableEq, Repr

/-- The durable state the webhook endpoint writes to: the webhookEvents log,
the jobs collection and the pubsubQueue relay. -/
structure IntakeState where
  webhookEvents : List WebhookEventRecord := []
  jobs : List (String × Job) := []
  pubsubQueue : List QueueItem := []
deriving DecidableEq, Repr

/-- The HTTP response sent back: status code, the success flag of the JSON
body when one is sent, and the message / body text. -/
structure HttpResponse where
  status : Nat
  success : Option Bool := none
  message : String
deriving DecidableEq, Repr

/-- String suffix test with the semantics of the JavaScript endsWith (the
core String.endsWith does not reduce in the kernel, so the test is stated on
the character lists). -/
def strEndsWith (s suffix : String) : Bool :=
  suffix.data.isSuffixOf s.data

/-- verifyGitHubSignature.  The HMAC-SHA256 hex digest is the abstract
parameter hmacHex (secret and message to hex string).  A missing or empty
signature is falsy and rejected; then the expected header value
sha256=digest is compared: differing lengths are rejected before the
timing-safe comparison, and timingSafeEqual on two equal-length UTF-8
buffers is byte equality, i.e. string equality. -/
def verifyGitHubSignature (hmacHex : String → String → String)
    (payload : String) (signature : Option String) (secret : String) : Bool :=
  match signature with
  | none => false
  | some sig =>
    if sig = ("") then false
    else
      let digest := ("sha256=") ++ hmacHex secret payload
      if sig.length ≠ digest.length then false
      else decide (sig = digest)

/-- Insertion into a JavaScript Set, as observed through Array.from: append
the element unless it is already present (insertion order, no duplicates). -/
def addUnique (acc : List String) (f : String) : List String :=
  if f ∈ acc then acc else acc ++ [f]

/-- forEach of a file list over a Set accumulator. -/
def addAllUnique (acc : List String) (l : List String) : List String :=
  l.foldl addUnique acc

/-- The changed-file extraction of handlePushEvent: for each commit in order,
add its modified files and then its added files to the Set; removed files are
never added.  Array.from then yields insertion order. -/
def collectChangedFiles (commits : List CommitInfo) : List String :=
  commits.foldl (fun acc c => addAllUnique (addAllUnique acc c.modified) c.added) []

/-- handlePullRequestEvent: require a pull_request field, accept only the
actions opened, synchronize and closed (a missing or empty action is falsy
and ignored), then create the queued pr-analysis job and its relay entry.
Returns the new state and the jobCreated flag. -/
def handlePullRequestEvent (freshJobId : String) (payload : WebhookPayload)
    (st : IntakeState) : IntakeState × Bool :=
  match payload.pullRequest with
  | none => (st, false)
  | some pr =>
    match payload.action with
    | none => (st, false)
    | some action =>
      if action ∈ [("opened"), ("synchronize"), ("closed")] then
        let job : Job :=
          { jobType := ("pr-analysis"), status := ("queued"),
            repoFullName := payload.repository.fullName,
            repoId := toString payload.repository.id,
            prNumber := some pr.number, prAction := some action,
            headSha := some pr.headSha, headRef := some pr.headRef,
            baseRef := some pr.baseRef }
        let msg : JobMessage :=
          { jobId := freshJobId, jobType := ("pr-analysis"),
            repoId := toString payload.repository.id,
            prNumber := some pr.number }
        ({ st with jobs := st.jobs ++ [(freshJobId, job)],
                   pubsubQueue := st.pubsubQueue ++
                     [newQueueItem ("analyze-repo") msg] }, true)
      else (st, false)

/-- handlePushEvent: require a ref that ends in /main or /master (a missing
or empty ref is falsy and ignored), deduplicate the modified and added files
of all commits, then create the queued push-analysis job and its relay
entry. -/
def handlePushEvent (freshJobId : String) (payload : WebhookPayload)
    (st : IntakeState) : IntakeState × Bool :=
  match payload.ref with
  | none => (st, false)
  | some r =>
    if r = ("") then (st, false)
    else if !(strEndsWith r ("/main") || strEndsWith r ("/master")) then
      (st, false)
    else
      let commits := payload.commits.getD []
      let changed := collectChangedFiles commits
      let job : Job :=
        { jobType := ("push-analysis"), status := ("queued"),
          repoFullName := payload.repository.fullName,
          repoId := toString payload.repository.id,
          ref := some r, beforeSha := payload.beforeSha,
          afterSha := payload.afterSha,
          changedFiles := some changed,
          commitCount := some commits.length }
      let msg : JobMessage :=
        { jobId := freshJobId, jobType := ("push-analysis"),
          repoId := toString payload.repository.id,
          changedFiles := some changed }
      ({ st with jobs := st.jobs ++ [(freshJobId, job)],
                 pubsubQueue := st.pubsubQueue ++
                   [newQueueItem ("analyze-repo") msg] }, true)

/-- githubWebhook, the HTTP endpoint.  Only POST is accepted; the signature
over the serialised body (JSON.stringify is the abstract parameter
stringify) is verified before any write; only then is the webhookEvents
record written and the event routed.  The response mirrors
res.status(...).send / .json of the source. -/
def githubWebhook (hmacHex : String → String → String)
    (stringify : WebhookPayload → String) (webhookSecret : String)
    (freshJobId : String) (req : WebhookRequest) (st : IntakeState) :
    IntakeState × HttpResponse :=
  if req.method ≠ ("POST") then
    (st, { status := 405, message := ("Method Not Allowed") })
  else
    let rawBody := stringify req.body
    if !(verifyGitHubSignature hmacHex rawBody req.signature webhookSecret) then
      (st, { status := 401, message := ("Unauthorized") })
    else
      let eventRec : WebhookEventRecord :=
        { deliveryId := req.deliveryId, event := req.event,
          repoFullName := req.body.repository.fullName,
          repoId := req.body.repository.id,
          action := req.body.action, processed := false }
      let st1 := { st with webhookEvents := st.webhookEvents ++ [eventRec] }
      let routed : IntakeState × Bool :=
        match req.event with
        | some ev =>
          if ev = ("pull_request") then
            handlePullRequestEvent freshJobId req.body st1
          else if ev = ("push") then
            handlePushEvent freshJobId req.body st1
          else (st1, false)
        | none => (st1, false)
      if routed.2 then
        (routed.1, { status := 200, success := some true,
                     message := ("Webhook processed and job created") })
      else
        (routed.1, { status := 200, success := some true,
                     message := ("Webhook received but no job created") })

/-! ## Worker dispatcher (functions-worker/src/index.ts) -/

/-- FileAnalysis as produced by the analysis service (analysis.services.ts).
The nested FunctionInfo / ClassInfo / ImportInfo records are collaborator
detail the pipeline never inspects and are kept as opaque strings. -/
structure FileAnalysis where
  filePath : String
  language : String
  functions : List String := []
  classes : List String := []
  imports : List String := []
  exports : List String := []
  linesOfCode : Nat := 0
deriving DecidableEq, Repr

/-- A document of the jobResults collection, written once per successful
worker run; the analysis payload is the routine result, polymorphic here
because each routine returns a differently shaped record. -/
structure ResultDoc (α : Type) where
  jobId : String
  repoId : String
  prNumber : Option Nat
  status : String
  analysis : α
deriving DecidableEq, Repr

/-- The durable state the worker writes to. -/
structure WorkerState (α : Type) where
  jobs : List (String × Job)
  jobResults : List (String × ResultDoc α) := []
deriving DecidableEq, Repr

/-- The switch (jobType) of the worker: pr-analysis and initial-ingestion
delegate to routines that may throw (abstract Except results), push-analysis
delegates to processPushAnalysis, which catches its per-file failures and
cannot throw; any other tag throws Unknown job type.  The repository full
name comes from the loaded job document, prNumber and changedFiles from the
message (changedFiles defaulted to the empty list). -/
def routeJob {α : Type} (processPR : String → Option Nat → Except String α)
    (processPush : String → List String → α)
    (processIngestion : String → Except String α)
    (p : JobMessage) (jobData : Job) : Except String α :=
  if p.jobType = ("pr-analysis") then
    processPR jobData.repoFullName p.prNumber
  else if p.jobType = ("push-analysis") then
    Except.ok (processPush jobData.repoFullName (p.changedFiles.getD []))
  else if p.jobType = ("initial-ingestion") then
    processIngestion jobData.repoFullName
  else
    Except.error (("Unknown job type: ") ++ p.jobType)

/-- The catch block of analyzeRepoWorker: if jobId is truthy, update the job
to status failed with the error message (without touching resultId), then
rethrow.  Should that update itself reject, its rejection propagates
instead. -/
def markJobFailed {α : Type} (jobId : String) (msg : String)
    (st : WorkerState α) : WorkerState α × Except String Unit :=
  if jobId ≠ ("") then
    match jobsUpdate st.jobs jobId
        (fun j => { j with status := ("failed"), error := some msg }) with
    | Except.ok js => ({ st with jobs := js }, Except.error msg)
    | Except.error m2 => (st, Except.error m2)
  else (st, Except.error msg)

/-- analyzeRepoWorker, the Pub/Sub message handler.  Each Firestore write of
the source is threaded in order, so writes made before a later throw persist,
exactly as the awaited updates do:
first the unconditional update to in-progress (no check that the job is not
already terminal), then the job load with the not-found throw, the routing
switch, the jobResults write under a fresh document id, and the final update
to completed with resultId set (without touching error).  Every throw lands
in markJobFailed and is rethrown to the bus. -/
def analyzeRepoWorker {α : Type}
    (processPR : String → Option Nat → Except String α)
    (processPush : String → List String → α)
    (processIngestion : String → Except String α)
    (freshResultId : String) (p : JobMessage) (st : WorkerState α) :
    WorkerState α × Except String Unit :=
  let step1 : WorkerState α × Except String Unit :=
    if p.jobId ≠ ("") then
      match jobsUpdate st.jobs p.jobId
          (fun j => { j with status := ("in-progress") }) with
      | Except.ok js => ({ st with jobs := js }, Except.ok ())
      | Except.error m => (st, Except.error m)
    else (st, Except.ok ())
  match step1 with
  | (st1, Except.error m) => markJobFailed p.jobId m st1
  | (st1, Except.ok _) =>
    match jobsGet st1.jobs p.jobId with
    | none => markJobFailed p.jobId (("Job ") ++ p.jobId ++ (" not found")) st1
    | some jobData =>
      match routeJob processPR processPush processIngestion p jobData with
      | Except.error m => markJobFailed p.jobId m st1
      | Except.ok analysisResult =>
        let st2 := { st1 with jobResults := st1.jobResults ++
          [(freshResultId,
            { jobId := p.jobId, repoId := p.repoId, prNumber := p.prNumber,
              status := ("completed"), analysis := analysisResult })] }
        let step5 : Except String (List (String × Job)) :=
          if p.jobId ≠ ("") then
            jobsUpdate st2.jobs p.jobId
              (fun j => { j with status := ("completed"),
                                 resultId := some freshResultId })
          else Except.ok st2.jobs
        match step5 with
        | Except.ok js => ({ st2 with jobs := js }, Except.ok ())
        | Except.error m => markJobFailed p.jobId m st2

/-! ## Processing routines -/

/-- generateMockFileContent: branch on the last dot-separated component of
the path.  The literal template texts of the source are abbreviated to their
head line; only the branch taken matters to the pipeline, because the
analysis service consuming the content is an abstract collaborator. -/
def generateMockFileContent (filePath : String) : String :=
  let ext := (filePath.splitOn (".")).getLastD filePath
  if ext = ("ts") || ext = ("js") then
    ("// ") ++ filePath ++ ("\nimport express from ...; export class App ...")
  else if ext = ("md") then
    ("# ") ++ filePath ++ ("\n## Overview ...")
  else
    ("// Mock content for ") ++ filePath

/-- The result record returned by processPushAnalysis (headSha, built from
Date.now, is omitted with the other timestamps; documentation is the opaque
AI collaborator output). -/
structure PushAnalysisPayload where
  type : String
  filesChanged : Nat
  files : List FileAnalysis
  documentation : String
deriving DecidableEq, Repr

/-- The body of the push-analysis loop for one file: analyze the mock
content; a throw of the analysis service (abstract analyzeFile) is caught and
logged, yielding none, which excludes the file from the result list. -/
def pushAnalyzeStep
    (analyzeFile : String → String → Except String FileAnalysis)
    (fp : String) : Option FileAnalysis :=
  (analyzeFile fp (generateMockFileContent fp)).toOption

/-- processPushAnalysis: analyze each changed file over its mock content,
excluding the files whose analysis throws; then the architecture overview is
generated over the successful analyses. -/
def processPushAnalysis
    (analyzeFile : String → String → Except String FileAnalysis)
    (generateArchitectureOverview : String → List FileAnalysis → String)
    (repoFullName : String) (changedFiles : List String) :
    PushAnalysisPayload :=
  let analysisResults := changedFiles.filterMap (pushAnalyzeStep analyzeFile)
  { type := ("push-analysis"), filesChanged := changedFiles.length,
    files := analysisResults,
    documentation := generateArchitectureOverview repoFullName analysisResults }

/-- The result record returned by processInitialIngestion. -/
structure IngestionPayload where
  type : String
  totalFiles : Nat
  analyzedFiles : Nat
  headSha : String
  files : List FileAnalysis
  onboardingDoc : String
  architectureDoc : String
deriving DecidableEq, Repr

/-- The body of the initial-ingestion loop for one file: read the content
and analyze it; a throw of either readFile or the analysis service is caught
and logged, yielding none, which excludes the file. -/
def ingestStep (readFile : String → String → Except String String)
    (analyzeFile : String → String → Except String FileAnalysis)
    (localPath : String) (fp : String) : Option FileAnalysis :=
  match readFile localPath fp with
  | Except.error _ => none
  | Except.ok content => (analyzeFile fp content).toOption

/-- processInitialIngestion: the repository snapshot (clone plus listFiles)
is given by localPath, headSha and the enumerated file list; the loop runs
over files.slice(0, 50), excluding the files whose read or analysis throws;
totalFiles records the full enumerated count and analyzedFiles the number of
successful analyses. -/
def processInitialIngestion
    (readFile : String → String → Except String String)
    (analyzeFile : String → String → Except String FileAnalysis)
    (generateOnboardingGuide : String → List FileAnalysis → String)
    (generateArchitectureOverview : String → List FileAnalysis → String)
    (repoFullName localPath headSha : String) (files : List String) :
    IngestionPayload :=
  let filesToAnalyze := files.take 50
  let analysisResults :=
    filesToAnalyze.filterMap (ingestStep readFile analyzeFile localPath)
  { type := ("initial-ingestion"), totalFiles := files.length,
    analyzedFiles := analysisResults.length, headSha := headSha,
    files := analysisResults,
    onboardingDoc := generateOnboardingGuide repoFullName analysisResults,
    architectureDoc := generateArchitectureOverview repoFullName analysisResults }

/-! ## Concrete scenarios used by the counterexamples and witnesses -/

/-- C1 scenario: a freshly created relay entry for a queued push job, and the
first reactive publish attempt failing with a transient bus error. -/
def c1Message : JobMessage :=
  { jobId := ("job-1"), jobType := ("push-analysis"), repoId := ("1") }

def c1QueuedJob : Job :=
  { jobType := ("push-analysis"), status := ("queued"),
    repoFullName := ("octo/app"), repoId := ("1") }

def c1Run : QueueItem × List (String × Job) × Except String Unit :=
  processPubSubQueue (Except.error ("UNAVAILABLE: bus temporarily unreachable"))
    0 (newQueueItem ("analyze-repo") c1Message) [(("job-1"), c1QueuedJob)]

/-- C2 scenario: a job already completed with resultId result-1, redelivered
to the worker, which reprocesses it under the fresh result id result-2. -/
def c2TerminalJob : Job :=
  { jobType := ("push-analysis"), status := ("completed"),
    repoFullName := ("octo/app"), repoId := ("1"),
    resultId := some ("result-1") }

def c2Message : JobMessage :=
  { jobId := ("job-1"), jobType := ("push-analysis"), repoId := ("1"),
    changedFiles := some [] }

def c2Run : WorkerState Unit × Except String Unit :=
  analyzeRepoWorker (fun _ _ => Except.error ("unused")) (fun _ _ => ())
    (fun _ => Except.error ("unused")) ("result-2") c2Message
    { jobs := [(("job-1"), c2TerminalJob)] }

/-- C3 scenario: a fresh queued job whose reactive publish fails (setting the
job to failed with an error), whose relay entry is then successfully retried
by the sweeper (which does not touch the job), after which the delivered
message is processed successfully by the worker. -/
def c3FreshJob : Job :=
  { jobType := ("push-analysis"), status := ("queued"),
    repoFullName := ("octo/app"), repoId := ("1") }

def c3Message : JobMessage :=
  { jobId := ("job-1"), jobType := ("push-analysis"), repoId := ("1"),
    changedFiles := some [] }

def c3PublishFailure : QueueItem × List (String × Job) × Except String Unit :=
  processPubSubQueue (Except.error ("bus down")) 0
    (newQueueItem ("analyze-repo") c3Message) [(("job-1"), c3FreshJob)]

def c3SweeperRetry : QueueItem × Bool :=
  sweepProcessItem (Except.ok ("mid-1")) 400000 c3PublishFailure.1

def c3Run : WorkerState Unit × Except String Unit :=
  analyzeRepoWorker (fun _ _ => Except.error ("unused")) (fun _ _ => ())
    (fun _ => Except.error ("unused")) ("result-1") c3Message
    { jobs := c3PublishFailure.2.1 }

/-- C5 scenario: an entry already marked permanentlyFailed that still
satisfies every condition of the sweeper query. -/
def c5Entry : QueueItem :=
  { topic := ("analyze-repo"),
    data := { jobId := ("job-9"), jobType := ("push-analysis"),
              repoId := ("9") },
    published := false, error := some ("boom"), retryCount := 3,
    permanentlyFailed := true, lastAttemptAt := some 0 }

/-- C4 scenario: a fresh relay entry whose reactive publish fails, followed
by two failing sweeper retries, i.e. three failed publish attempts in a
row. -/
def c4Message : JobMessage :=
  { jobId := ("job-4"), jobType := ("push-analysis"), repoId := ("4") }

def c4Entry0 : QueueItem := newQueueItem ("analyze-repo") c4Message

def c4Entry1 : QueueItem :=
  (processPubSubQueue (Except.error ("bus down")) 0 c4Entry0 []).1

def c4Entry2 : QueueItem :=
  (sweepProcessItem (Except.error ("bus down")) 310000 c4Entry1).1

def c4Entry3 : QueueItem :=
  (sweepProcessItem (Except.error ("bus down")) 620000 c4Entry2).1

/-- An intake state with no records at all. -/
def emptyIntake : IntakeState := {}

/-- The repository header shared by the concrete webhook scenarios. -/
def scenarioRepo : RepositoryInfo :=
  { id := 1, name := ("app"), fullName := ("octo/app"),
    ownerLogin := ("octo") }

/-- C6 scenario: a POST whose signature header does not match the computed
digest (same length, different bytes, so the timing-safe comparison itself is
what rejects). -/
def c6Request : WebhookRequest :=
  { method := ("POST"), event := some ("push"),
    signature := some ("sha256=bb"), deliveryId := some ("d1"),
    body := { repository := scenarioRepo, senderLogin := ("octo") } }

/-- C9 scenario: a correctly signed pull_request event whose action is
labeled, which is outside the accepted set. -/
def c9Request : WebhookRequest :=
  { method := ("POST"), event := some ("pull_request"),
    signature := some ("sha256=aa"), deliveryId := some ("d2"),
    body := { action := some ("labeled"),
              pullRequest := some { number := 7, state := ("open"),
                                    headSha := ("h7"), headRef := ("topic"),
                                    baseRef := ("main") },
              repository := scenarioRepo, senderLogin := ("octo") } }

/-- C10 scenario: a push to main with two commits sharing a modified path
and one path that only ever appears in a removed list. -/
def c10Payload : WebhookPayload :=
  { repository := scenarioRepo, senderLogin := ("octo"),
    ref := some ("refs/heads/main"),
    beforeSha := some ("b0"), afterSha := some ("a0"),
    commits := some
      [ { id := ("c1"), message := ("one"), modified := [("a.ts")],
          added := [("b.md")], removed := [("gone.ts")] },
        { id := ("c2"), message := ("two"), modified := [("a.ts")],
          added := [("c.ts")], removed := [] } ] }

/-- C7 scenario: an analysis service that throws on bad.ts and succeeds on
every other path. -/
def c7Analyze : String → String → Except String FileAnalysis :=
  fun f _ =>
    if f = ("bad.ts") then Except.error ("boom")
    else Except.ok { filePath := f, language := ("ts") }

/-- C7 scenario: the queued push job being processed. -/
def c7Job : Job :=
  { jobType := ("push-analysis"), status := ("queued"),
    repoFullName := ("octo/app"), repoId := ("1") }

/-- C8 scenario: a repository snapshot enumerating 75 eligible files. -/
def c8Files : List String := (List.range 75).map (fun i => ("f") ++ toString i)

/-- C8 scenario: the analysis every file receives. -/
def c8Analysis : String → FileAnalysis :=
  fun f => { filePath := f, language := ("ts") }

/-! ## Helper lemmas -/

theorem jobsGet_jobsAdjust_self (jobs : List (String × Job)) (id : String)
    (f : Job → Job) (j : Job) (h : jobsGet jobs id = some j) :
    jobsGet (jobsAdjust jobs id f) id = some (f j) := by
  induction jobs with
  | nil => simp [jobsGet] at h
  | cons a tl ih =>
    by_cases ha : a.1 = id
    · have hfind : List.find? (fun p => decide (p.1 = id)) (a :: tl) = some a :=
        List.find?_cons_of_pos _ (by simpa using ha)
      rw [jobsGet, hfind] at h
      have haj : a.2 = j := by simpa using h
      rw [jobsAdjust]
      simp only [List.map_cons, if_pos ha]
      rw [jobsGet, List.find?_cons_of_pos _ (by simpa using ha)]
      simp [haj]
    · have hfind : List.find? (fun p => decide (p.1 = id)) (a :: tl) =
          List.find? (fun p => decide (p.1 = id)) tl :=
        List.find?_cons_of_neg _ (by simpa using ha)
      rw [jobsGet, hfind] at h
      have h2 : jobsGet tl id = some j := h
      rw [jobsAdjust]
      simp only [List.map_cons, if_neg ha]
      rw [jobsGet, List.find?_cons_of_neg _ (by simpa using ha)]
      exact ih h2

theorem jobsUpdate_of_get (jobs : List (String × Job)) (id : String)
    (f : Job → Job) (j : Job) (h : jobsGet jobs id = some j) :
    jobsUpdate jobs id f = Except.ok (jobsAdjust jobs id f) := by
  simp [jobsUpdate, h]

theorem jobsGet_singleton (id : String) (j : Job) :
    jobsGet [(id, j)] id = some j := by
  simp [jobsGet]

theorem filterMap_eq_map_of_forall {β γ : Type} (step : β → Option γ)
    (g : β → γ) (l : List β) (h : ∀ f ∈ l, step f = some (g f)) :
    l.filterMap step = l.map g := by
  induction l with
  | nil => rfl
  | cons a tl ih =>
    have ha := h a (List.mem_cons_self a tl)
    have htl : ∀ f ∈ tl, step f = some (g f) :=
      fun f hf => h f (List.mem_cons_of_mem a hf)
    simp [List.filterMap_cons, ha, ih htl]

theorem filterMap_length_of_isSome {β γ : Type} (step : β → Option γ)
    (l : List β) (h : ∀ f ∈ l, (step f).isSome = true) :
    (l.filterMap step).length = l.length := by
  induction l with
  | nil => rfl
  | cons a tl ih =>
    have ha := h a (List.mem_cons_self a tl)
    obtain ⟨v, hv⟩ := Option.isSome_iff_exists.mp ha
    have htl : ∀ f ∈ tl, (step f).isSome = true :=
      fun f hf => h f (List.mem_cons_of_mem a hf)
    simp [List.filterMap_cons, hv, ih htl]

theorem mem_addUnique (acc : List String) (f x : String) :
    x ∈ addUnique acc f ↔ x ∈ acc ∨ x = f := by
  by_cases hf : f ∈ acc
  · simp only [addUnique, if_pos hf]
    constructor
    · exact fun hx => Or.inl hx
    · rintro (hx | rfl)
      · exact hx
      · exact hf
  · simp [addUnique, if_neg hf]

theorem nodup_addUnique (acc : List String) (f : String) (h : acc.Nodup) :
    (addUnique acc f).Nodup := by
  by_cases hf : f ∈ acc
  · simpa [addUnique, if_pos hf] using h
  · simp [addUnique, if_neg hf, List.nodup_append, h, hf]

theorem mem_addAllUnique (l : List String) :
    ∀ (acc : List String) (x : String),
      x ∈ addAllUnique acc l ↔ x ∈ acc ∨ x ∈ l := by
  induction l with
  | nil => intro acc x; simp [addAllUnique]
  | cons a tl ih =>
    intro acc x
    simp only [addAllUnique, List.foldl_cons] at *
    rw [ih (addUnique acc a) x, mem_addUnique]
    constructor
    · rintro ((hx | rfl) | hx)
      · exact Or.inl hx
      · exact Or.inr (List.mem_cons_self _ _)
      · exact Or.inr (List.mem_cons_of_mem _ hx)
    · rintro (hx | hx)
      · exact Or.inl (Or.inl hx)
      · rcases List.mem_cons.mp hx with rfl | hx
        · exact Or.inl (Or.inr rfl)
        · exact Or.inr hx

theorem nodup_addAllUnique (l : List String) :
    ∀ acc : List String, acc.Nodup → (addAllUnique acc l).Nodup := by
  induction l with
  | nil => intro acc h; simpa [addAllUnique] using h
  | cons a tl ih =>
    intro acc h
    simpa only [addAllUnique, List.foldl_cons] using
      ih (addUnique acc a) (nodup_addUnique acc a h)

theorem mem_collectChangedFiles_aux (commits : List CommitInfo) :
    ∀ (acc : List String) (x : String),
      x ∈ commits.foldl
        (fun acc c => addAllUnique (addAllUnique acc c.modified) c.added) acc ↔
      x ∈ acc ∨ ∃ c ∈ commits, x ∈ c.modified ∨ x ∈ c.added := by
  induction commits with
  | nil => intro acc x; simp
  | cons c tl ih =>
    intro acc x
    simp only [List.foldl_cons]
    rw [ih, mem_addAllUnique, mem_addAllUnique]
    constructor
    · rintro (((hx | hx) | hx) | hx)
      · exact Or.inl hx
      · exact Or.inr ⟨c, List.mem_cons_self c tl, Or.inl hx⟩
      · exact Or.inr ⟨c, List.mem_cons_self c tl, Or.inr hx⟩
      · obtain ⟨d, hd, hxd⟩ := hx
        exact Or.inr ⟨d, List.mem_cons_of_mem c hd, hxd⟩
    · rintro (hx | ⟨d, hd, hxd⟩)
      · exact Or.inl (Or.inl (Or.inl hx))
      · rcases List.mem_cons.mp hd with rfl | hd
        · rcases hxd with hx | hx
          · exact Or.inl (Or.inl (Or.inr hx))
          · exact Or.inl (Or.inr hx)
        · exact Or.inr ⟨d, hd, hxd⟩

theorem mem_collectChangedFiles (commits : List CommitInfo) (x : String) :
    x ∈ collectChangedFiles commits ↔
      ∃ c ∈ commits, x ∈ c.modified ∨ x ∈ c.added := by
  rw [collectChangedFiles, mem_collectChangedFiles_aux]
  simp

theorem nodup_collectChangedFiles (commits : List CommitInfo) :
    (collectChangedFiles commits).Nodup := by
  rw [collectChangedFiles]
  have : ∀ acc : List String, acc.Nodup →
      (commits.foldl
        (fun acc c => addAllUnique (addAllUnique acc c.modified) c.added)
        acc).Nodup := by
    induction commits with
    | nil => intro acc h; simpa using h
    | cons c tl ih =>
      intro acc h
      simpa only [List.foldl_cons] using
        ih (addAllUnique (addAllUnique acc c.modified) c.added)
          (nodup_addAllUnique c.added (addAllUnique acc c.modified)
            (nodup_addAllUnique c.modified acc h))
  exact this [] List.nodup_nil

theorem sweepProcessItem_at_bound (o : Except String String) (now : Nat)
    (e : QueueItem) (h : 3 ≤ e.retryCount) :
    sweepProcessItem o now e = ({ e with permanentlyFailed := true }, false) := by
  simp [sweepProcessItem, h]

theorem sweepRun_no_attempts (outcome : Nat → Except String String)
    (clock : Nat → Nat) (n : Nat) (e : QueueItem) (h : 3 ≤ e.retryCount) :
    (sweepRun outcome clock n e).2 = 0 := by
  induction n generalizing e with
  | zero => rfl
  | succ n ih =>
    rw [sweepRun, sweepProcessItem_at_bound _ _ _ h]
    simpa using ih { e with permanentlyFailed := true } h

theorem analyzeRepoWorker_push_run {α : Type}
    (processPR : String → Option Nat → Except String α)
    (processPush : String → List String → α)
    (processIngestion : String → Except String α)
    (fresh jid repoId : String) (pn : Option Nat) (cf : Option (List String))
    (jobs : List (String × Job)) (rs : List (String × ResultDoc α)) (j0 : Job)
    (hjid : jid ≠ ("")) (hget : jobsGet jobs jid = some j0) :
    analyzeRepoWorker processPR processPush processIngestion fresh
      { jobId := jid, jobType := ("push-analysis"), repoId := repoId,
        prNumber := pn, changedFiles := cf }
      { jobs := jobs, jobResults := rs } =
    ({ jobs := jobsAdjust
          (jobsAdjust jobs jid (fun j => { j with status := ("in-progress") }))
          jid (fun j => { j with status := ("completed"),
                                 resultId := some fresh }),
       jobResults := rs ++ [(fresh,
         { jobId := jid, repoId := repoId, prNumber := pn,
           status := ("completed"),
           analysis := processPush j0.repoFullName (cf.getD []) })] },
     Except.ok ()) := by
  have hget1 : jobsGet
      (jobsAdjust jobs jid (fun j => { j with status := ("in-progress") }))
      jid = some { j0 with status := ("in-progress") } :=
    jobsGet_jobsAdjust_self jobs jid _ j0 hget
  have hok1 : jobsUpdate jobs jid
      (fun j => { j with status := ("in-progress") }) =
      Except.ok (jobsAdjust jobs jid
        (fun j => { j with status := ("in-progress") })) :=
    jobsUpdate_of_get jobs jid _ j0 hget
  have hok2 : jobsUpdate
      (jobsAdjust jobs jid (fun j => { j with status := ("in-progress") }))
      jid (fun j => { j with status := ("completed"),
                             resultId := some fresh }) =
      Except.ok (jobsAdjust
        (jobsAdjust jobs jid (fun j => { j with status := ("in-progress") }))
        jid (fun j => { j with status := ("completed"),
                               resultId := some fresh })) :=
    jobsUpdate_of_get _ jid _ _ hget1
  simp [analyzeRepoWorker, routeJob, hjid, hok1, hget1, hok2]

/-! ## Claim C1 -/

/-- C1 counterexample: the reactive publish of a freshly created relay entry
fails with a transient bus error (gRPC UNAVAILABLE); the publisher records
the error and increments retryCount on the entry, but the referenced Job is
advanced to status failed, not left queued or dispatched, contradicting the
claim that a transient delivery failure leaves the Job status untouched. -/
theorem c1_counterexample :
    c1Run.1.error = some ("UNAVAILABLE: bus temporarily unreachable") ∧
    c1Run.1.retryCount = 1 ∧
    (jobsGet c1Run.2.1 ("job-1")).map Job.status = some ("failed") ∧
    ¬ ((jobsGet c1Run.2.1 ("job-1")).map Job.status = some ("queued") ∨
       (jobsGet c1Run.2.1 ("job-1")).map Job.status = some ("dispatched")) := by
  decide

/-- C1 (amended): when the reactive publish of a RelayEntry fails, the
publisher records the error on the entry and increments its retryCount, and
the referenced Job is advanced to status failed for every failure, with no
distinction between retryable and non-retryable failure classes; the entry
itself stays unpublished for the sweeper, and the error is rethrown. -/
theorem c1_publish_failure_always_fails_job (msg : String) (now : Nat)
    (item : QueueItem) (jobs : List (String × Job)) (j0 : Job)
    (hpub : item.published = false) (hjid : item.data.jobId ≠ (""))
    (hget : jobsGet jobs item.data.jobId = some j0) :
    (processPubSubQueue (Except.error msg) now item jobs).1.error = some msg ∧
    (processPubSubQueue (Except.error msg) now item jobs).1.retryCount =
      item.retryCount + 1 ∧
    (processPubSubQueue (Except.error msg) now item jobs).1.published = false ∧
    jobsGet (processPubSubQueue (Except.error msg) now item jobs).2.1
        item.data.jobId =
      some { j0 with status := ("failed"), error := some msg } ∧
    (processPubSubQueue (Except.error msg) now item jobs).2.2 =
      Except.error msg := by
  simp [processPubSubQueue, hpub, hjid,
    jobsGet_jobsAdjust_self jobs item.data.jobId _ j0 hget]

/-- C1 witness: the amended theorem at the concrete C1 scenario. -/
theorem c1_publish_failure_witness :
    (newQueueItem ("analyze-repo") c1Message).published = false ∧
    jobsGet c1Run.2.1 ("job-1") =
      some { c1QueuedJob with
             status := ("failed"),
             error := some ("UNAVAILABLE: bus temporarily unreachable") } := by
  refine ⟨rfl, ?_⟩
  have h := c1_publish_failure_always_fails_job
    ("UNAVAILABLE: bus temporarily unreachable") 0
    (newQueueItem ("analyze-repo") c1Message) [(("job-1"), c1QueuedJob)]
    c1QueuedJob rfl (by decide) (by decide)
  exact h.2.2.2.1

/-! ## Claim C4 -/

/-- C4: the retry bound.  A fresh entry whose reactive publish fails has
retryCount 1; every failing sweeper attempt below the bound makes a publish
attempt and increments retryCount; once retryCount has reached 3 (the 3rd
consecutive failure) the sweeper visit marks the entry permanentlyFailed=true
and makes no publish attempt, and any number of further sweeper visits makes
zero publish attempts — there is never a 4th attempt. -/
theorem c4_retry_bound :
    (∀ (topic : String) (data : JobMessage) (jobs : List (String × Job))
       (m1 : String) (t1 : Nat),
       (processPubSubQueue (Except.error m1) t1 (newQueueItem topic data)
         jobs).1.retryCount = 1) ∧
    (∀ (e : QueueItem) (m : String) (t : Nat), e.retryCount < 3 →
       sweepProcessItem (Except.error m) t e =
         ({ e with error := some m, lastAttemptAt := some t,
                   retryCount := e.retryCount + 1 }, true)) ∧
    (∀ (e : QueueItem) (o : Except String String) (t : Nat),
       3 ≤ e.retryCount →
       sweepProcessItem o t e = ({ e with permanentlyFailed := true }, false)) ∧
    (∀ (outcome : Nat → Except String String) (clock : Nat → Nat) (n : Nat)
       (e : QueueItem), 3 ≤ e.retryCount →
       (sweepRun outcome clock n e).2 = 0) := by
  refine ⟨?_, ?_, ?_, ?_⟩
  · intro topic data jobs m1 t1
    simp [processPubSubQueue, newQueueItem]
  · intro e m t h
    simp [sweepProcessItem, Nat.not_le.mpr h]
  · exact fun e o t h => sweepProcessItem_at_bound o t e h
  · exact fun outcome clock n e h => sweepRun_no_attempts outcome clock n e h

/-- C4 witness: the concrete three-failures-in-a-row scenario, settled by the
retry-bound theorem: after the 3rd failed attempt retryCount is 3, the next
sweeper visit marks the entry permanentlyFailed without attempting, and five
further sweeps make zero attempts. -/
theorem c4_retry_bound_witness :
    c4Entry1.retryCount = 1 ∧
    c4Entry2.retryCount = 2 ∧
    c4Entry3.retryCount = 3 ∧
    c4Entry3.permanentlyFailed = false ∧
    sweepProcessItem (Except.error ("bus down")) 930000 c4Entry3 =
      ({ c4Entry3 with permanentlyFailed := true }, false) ∧
    (sweepRun (fun _ => Except.error ("bus down")) (fun k => 930000 + k)
      5 c4Entry3).2 = 0 := by
  obtain ⟨h1, h2, h3, h4⟩ := c4_retry_bound
  refine ⟨h1 ("analyze-repo") c4Message [] ("bus down") 0, by decide, by decide,
    by decide, h3 c4Entry3 (Except.error ("bus down")) 930000 (by decide),
    h4 (fun _ => Except.error ("bus down")) (fun k => 930000 + k) 5 c4Entry3
      (by decide)⟩

/-! ## Claim C5 -/

/-- C5 counterexample: an entry already marked permanentlyFailed=true that is
unpublished, carries an error and has an old lastAttemptAt is still selected
by the sweep query — the query does not filter on permanentlyFailed — so the
claim that a permanentlyFailed entry is never selected again is false. -/
theorem c5_counterexample :
    c5Entry.permanentlyFailed = true ∧
    sweepSelect 1 [c5Entry] = [c5Entry] := by
  decide

/-- C5 (amended): every sweep run selects only entries with published=false,
an error present and a lastAttemptAt older than the cutoff (the query does
not exclude permanentlyFailed entries, which therefore continue to be
selected); at most 10 entries are processed per run; and a selected entry
whose retryCount has reached 3 is only re-marked permanentlyFailed, never
published again. -/
theorem c5_sweep_selection (cutoff : Nat) (items : List QueueItem) :
    (sweepSelect cutoff items).length ≤ 10 ∧
    (∀ e ∈ sweepSelect cutoff items,
       e.published = false ∧ e.error.isSome = true ∧
       ∃ t, e.lastAttemptAt = some t ∧ t < cutoff) ∧
    (∀ (e : QueueItem) (o : Except String String) (t2 : Nat),
       3 ≤ e.retryCount →
       sweepProcessItem o t2 e = ({ e with permanentlyFailed := true }, false)) := by
  refine ⟨?_, ?_, fun e o t2 h => sweepProcessItem_at_bound o t2 e h⟩
  · rw [sweepSelect, List.length_take]
    exact Nat.min_le_left _ _
  · intro e he
    have he2 : e ∈ items.filter (sweepQueryMatches cutoff) :=
      List.take_subset _ _ he
    have hq : sweepQueryMatches cutoff e = true := (List.mem_filter.mp he2).2
    rw [sweepQueryMatches] at hq
    simp only [Bool.and_eq_true, Bool.not_eq_true'] at hq
    obtain ⟨⟨hp, herr⟩, hlast⟩ := hq
    refine ⟨hp, herr, ?_⟩
    cases ho : e.lastAttemptAt with
    | none => rw [ho] at hlast; exact absurd hlast (by simp)
    | some t =>
      rw [ho] at hlast
      exact ⟨t, rfl, of_decide_eq_true hlast⟩

/-- C5 witness: the selection theorem at the concrete permanentlyFailed
entry. -/
theorem c5_sweep_selection_witness :
    (sweepSelect 1 [c5Entry]).length ≤ 10 ∧
    sweepProcessItem (Except.ok ("mid")) 5 c5Entry =
      ({ c5Entry with permanentlyFailed := true }, false) := by
  refine ⟨(c5_sweep_selection 1 [c5Entry]).1, ?_⟩
  exact (c5_sweep_selection 1 [c5Entry]).2.2 c5Entry (Except.ok ("mid")) 5
    (by decide)

/-! ## Claim C2 -/

/-- C2 counterexample: a Job already completed with resultId result-1 is
redelivered; the worker has no terminal-state check, reprocesses the job and
overwrites resultId with the fresh result id result-2 — the terminal field
does not stay unchanged, so duplicate delivery is not idempotent. -/
theorem c2_counterexample :
    c2TerminalJob.status = ("completed") ∧
    c2TerminalJob.resultId = some ("result-1") ∧
    (jobsGet c2Run.1.jobs ("job-1")).map Job.resultId =
      some (some ("result-2")) ∧
    some ("result-2") ≠ some ("result-1") := by
  decide

/-- C2 (amended): the worker performs no terminal-state check.  A message
redelivered for a Job already in a terminal state (completed or failed) is
reprocessed from scratch: the Job is reset to in-progress and, when the
routine succeeds, a new Result document is written and the Job ends completed
with resultId overwritten by the fresh Result id — terminal fields are not
preserved across duplicate delivery. -/
theorem c2_duplicate_delivery_overwrites_result {α : Type}
    (processPR : String → Option Nat → Except String α)
    (processPush : String → List String → α)
    (processIngestion : String → Except String α)
    (fresh jid repoId : String) (pn : Option Nat) (cf : Option (List String))
    (jobs : List (String × Job)) (rs : List (String × ResultDoc α)) (j0 : Job)
    (_hterm : j0.status = ("completed") ∨ j0.status = ("failed"))
    (hjid : jid ≠ ("")) (hget : jobsGet jobs jid = some j0) :
    jobsGet (analyzeRepoWorker processPR processPush processIngestion fresh
        { jobId := jid, jobType := ("push-analysis"), repoId := repoId,
          prNumber := pn, changedFiles := cf }
        { jobs := jobs, jobResults := rs }).1.jobs jid =
      some { j0 with status := ("completed"), resultId := some fresh } ∧
    (analyzeRepoWorker processPR processPush processIngestion fresh
        { jobId := jid, jobType := ("push-analysis"), repoId := repoId,
          prNumber := pn, changedFiles := cf }
        { jobs := jobs, jobResults := rs }).1.jobResults =
      rs ++ [(fresh,
        { jobId := jid, repoId := repoId, prNumber := pn,
          status := ("completed"),
          analysis := processPush j0.repoFullName (cf.getD []) })] := by
  rw [analyzeRepoWorker_push_run processPR processPush processIngestion fresh
    jid repoId pn cf jobs rs j0 hjid hget]
  refine ⟨?_, rfl⟩
  exact jobsGet_jobsAdjust_self _ jid
    (fun j => { j with status := ("completed"), resultId := some fresh })
    { j0 with status := ("in-progress") }
    (jobsGet_jobsAdjust_self jobs jid
      (fun j => { j with status := ("in-progress") }) j0 hget)

/-- C2 witness: the amended theorem at the concrete redelivery scenario. -/
theorem c2_duplicate_delivery_witness :
    (c2TerminalJob.status = ("completed") ∨ c2TerminalJob.status = ("failed")) ∧
    jobsGet c2Run.1.jobs ("job-1") =
      some { c2TerminalJob with
             status := ("completed"), resultId := some ("result-2") } := by
  refine ⟨Or.inl rfl, ?_⟩
  have h := c2_duplicate_delivery_overwrites_result
    (fun _ _ => Except.error ("unused")) (fun _ _ => ())
    (fun _ => Except.error ("unused")) ("result-2") ("job-1") ("1")
    none (some []) [(("job-1"), c2TerminalJob)] [] c2TerminalJob
    (Or.inl rfl) (by decide) (by decide)
  exact h.1

/-! ## Claim C3 -/

/-- C3 counterexample: a fresh queued Job whose reactive publish fails is set
to failed with an error recorded; the relay entry is then successfully
retried by the sweeper (which rewrites only the entry, not the Job), and the
delivered message is processed successfully by the worker.  The worker never
clears the stale error field, so the Job ends with status completed and BOTH
resultId and error populated, violating the exactly-one invariant. -/
theorem c3_counterexample :
    c3SweeperRetry.1.published = true ∧
    (jobsGet c3Run.1.jobs ("job-1")).map Job.status = some ("completed") ∧
    (jobsGet c3Run.1.jobs ("job-1")).map Job.resultId =
      some (some ("result-1")) ∧
    (jobsGet c3Run.1.jobs ("job-1")).map Job.error =
      some (some ("bus down")) := by
  decide

/-- C3 (amended): on a single pass the invariant holds — starting from a
fresh Job (resultId and error both absent), one worker invocation ends with
exactly one outcome field populated (resultId when completed, error when
failed), and a publish failure on a fresh Job likewise yields failed with
only error populated.  The full claim fails because no transition ever
clears the other field (see the counterexample). -/
theorem c3_single_pass_outcome_exclusive {α : Type}
    (processPR : String → Option Nat → Except String α)
    (processPush : String → List String → α)
    (processIngestion : String → Except String α)
    (fresh : String) (p : JobMessage) (j0 : Job)
    (hr : j0.resultId = none) (he : j0.error = none)
    (hjid : p.jobId ≠ ("")) :
    (∃ jf, jobsGet (analyzeRepoWorker processPR processPush processIngestion
        fresh p { jobs := [(p.jobId, j0)], jobResults := [] }).1.jobs p.jobId =
          some jf ∧
       ((jf.status = ("completed") ∧ jf.resultId = some fresh ∧
          jf.error = none) ∨
        (jf.status = ("failed") ∧ jf.resultId = none ∧
          ∃ m, jf.error = some m))) ∧
    (∀ (msg : String) (now : Nat) (item : QueueItem),
       item.published = false → item.data.jobId = p.jobId →
       ∃ jf, jobsGet (processPubSubQueue (Except.error msg) now item
           [(p.jobId, j0)]).2.1 p.jobId = some jf ∧
         jf.status = ("failed") ∧ jf.resultId = none ∧ jf.error = some msg) := by
  constructor
  · have hget : jobsGet [(p.jobId, j0)] p.jobId = some j0 :=
      jobsGet_singleton _ _
    have hok1 : jobsUpdate [(p.jobId, j0)] p.jobId
        (fun j => { j with status := ("in-progress") }) =
        Except.ok (jobsAdjust [(p.jobId, j0)] p.jobId
          (fun j => { j with status := ("in-progress") })) :=
      jobsUpdate_of_get _ _ _ _ hget
    have hget1 : jobsGet
        (jobsAdjust [(p.jobId, j0)] p.jobId
          (fun j => { j with status := ("in-progress") })) p.jobId =
        some { j0 with status := ("in-progress") } :=
      jobsGet_jobsAdjust_self _ _ _ _ hget
    cases hroute : routeJob processPR processPush processIngestion p
        { j0 with status := ("in-progress") } with
    | ok a =>
      have hok2 : jobsUpdate
          (jobsAdjust [(p.jobId, j0)] p.jobId
            (fun j => { j with status := ("in-progress") })) p.jobId
          (fun j => { j with status := ("completed"),
                             resultId := some fresh }) =
          Except.ok (jobsAdjust
            (jobsAdjust [(p.jobId, j0)] p.jobId
              (fun j => { j with status := ("in-progress") })) p.jobId
            (fun j => { j with status := ("completed"),
                               resultId := some fresh })) :=
        jobsUpdate_of_get _ _ _ _ hget1
      refine ⟨{ j0 with status := ("completed"), resultId := some fresh },
        ?_, Or.inl ⟨rfl, rfl, he⟩⟩
      simp only [analyzeRepoWorker, if_pos hjid, hok1, hget1, hroute, hok2]
      exact jobsGet_jobsAdjust_self _ p.jobId
        (fun j => { j with status := ("completed"),
                           resultId := some fresh })
        { j0 with status := ("in-progress") } hget1
    | error m =>
      refine ⟨{ j0 with status := ("failed"), error := some m },
        ?_, Or.inr ⟨rfl, hr, m, rfl⟩⟩
      simp only [analyzeRepoWorker, if_pos hjid, hok1, hget1, hroute,
        markJobFailed, jobsUpdate_of_get _ _ _ _ hget1]
      exact jobsGet_jobsAdjust_self _ p.jobId
        (fun j => { j with status := ("failed"), error := some m })
        { j0 with status := ("in-progress") } hget1
  · intro msg now item hpub hjid2
    refine ⟨{ j0 with status := ("failed"), error := some msg }, ?_, rfl, hr,
      rfl⟩
    simp only [processPubSubQueue, hpub, Bool.false_eq_true, if_false, hjid2]
    rw [if_pos hjid]
    exact jobsGet_jobsAdjust_self _ p.jobId
      (fun j => { j with status := ("failed"), error := some msg })
      j0 (jobsGet_singleton _ _)

/-- C3 witness: the single-pass theorem at a concrete fresh queued job, for
both a successful and the publish-failure transition. -/
theorem c3_single_pass_witness :
    (c3FreshJob.resultId = none ∧ c3FreshJob.error = none) ∧
    (∃ jf, jobsGet (analyzeRepoWorker (fun _ _ => Except.error ("unused"))
        (fun _ _ => ()) (fun _ => Except.error ("unused")) ("result-9")
        c3Message { jobs := [(("job-1"), c3FreshJob)],
                    jobResults := [] }).1.jobs ("job-1") = some jf ∧
       ((jf.status = ("completed") ∧ jf.resultId = some ("result-9") ∧
          jf.error = none) ∨
        (jf.status = ("failed") ∧ jf.resultId = none ∧
          ∃ m, jf.error = some m))) := by
  refine ⟨⟨rfl, rfl⟩, ?_⟩
  have h := c3_single_pass_outcome_exclusive
    (fun _ _ => Except.error ("unused")) (fun _ _ => (() : Unit))
    (fun _ => Except.error ("unused")) ("result-9") c3Message c3FreshJob
    rfl rfl (by decide)
  exact h.1

/-! ## Claim C6 -/

/-- C6: a webhook POST whose signature header is missing, or whose value does
not byte-for-byte equal the expected sha256 digest of the serialised body, is
answered 401 Unauthorized and the state is returned completely unchanged — no
webhookEvents record, no Job and no relay entry is written. -/
theorem c6_bad_signature_rejected_before_writes
    (hmacHex : String → String → String)
    (stringify : WebhookPayload → String) (secret fresh : String)
    (req : WebhookRequest) (st : IntakeState)
    (hm : req.method = ("POST"))
    (hsig : ∀ s, req.signature = some s →
      s ≠ ("sha256=") ++ hmacHex secret (stringify req.body)) :
    githubWebhook hmacHex stringify secret fresh req st =
      (st, { status := 401, success := none, message := ("Unauthorized") }) := by
  have hv : verifyGitHubSignature hmacHex (stringify req.body) req.signature
      secret = false := by
    cases hso : req.signature with
    | none => rfl
    | some s =>
      have hne := hsig s hso
      by_cases hs0 : s = ("")
      · simp [verifyGitHubSignature, hs0]
      · by_cases hl : s.length =
            (("sha256=") ++ hmacHex secret (stringify req.body)).length
        · simp [verifyGitHubSignature, hs0, hl, hne]
        · simp [verifyGitHubSignature, hs0, hl]
          exact fun _ => hne
  simp [githubWebhook, hm, hv]

/-- C6 witness: the rejection theorem at the concrete mismatching request
(equal-length digests differing in their bytes). -/
theorem c6_bad_signature_witness :
    c6Request.method = ("POST") ∧
    githubWebhook (fun _ _ => ("aa")) (fun _ => ("raw")) ("dev-secret")
        ("job-1") c6Request emptyIntake =
      (emptyIntake,
       { status := 401, success := none, message := ("Unauthorized") }) := by
  refine ⟨rfl, ?_⟩
  exact c6_bad_signature_rejected_before_writes (fun _ _ => ("aa"))
    (fun _ => ("raw")) ("dev-secret") ("job-1") c6Request emptyIntake rfl
    (by
      intro s hs
      have hs2 : s = ("sha256=bb") := by
        have := hs.symm
        simpa [c6Request] using this
      rw [hs2]
      decide)

/-! ## Claim C9 -/

/-- C9: a correctly signed pull_request event whose action is outside
the set opened / synchronize / closed creates no Job and no relay entry, and
the endpoint answers 200 with success true and the no-job-created message,
not an error. -/
theorem c9_irrelevant_pr_action_no_job (hmacHex : String → String → String)
    (stringify : WebhookPayload → String) (secret fresh : String)
    (req : WebhookRequest) (st : IntakeState)
    (hm : req.method = ("POST"))
    (hv : verifyGitHubSignature hmacHex (stringify req.body) req.signature
      secret = true)
    (hev : req.event = some ("pull_request"))
    (hact : ∀ a, req.body.action = some a →
      a ∉ [("opened"), ("synchronize"), ("closed")]) :
    (githubWebhook hmacHex stringify secret fresh req st).1.jobs = st.jobs ∧
    (githubWebhook hmacHex stringify secret fresh req st).1.pubsubQueue =
      st.pubsubQueue ∧
    (githubWebhook hmacHex stringify secret fresh req st).2 =
      { status := 200, success := some true,
        message := ("Webhook received but no job created") } := by
  have hpr : ∀ st2 : IntakeState,
      handlePullRequestEvent fresh req.body st2 = (st2, false) := by
    intro st2
    cases hpro : req.body.pullRequest with
    | none => simp [handlePullRequestEvent, hpro]
    | some pr =>
      cases hao : req.body.action with
      | none => simp [handlePullRequestEvent, hpro, hao]
      | some a => simp [handlePullRequestEvent, hpro, hao, hact a hao]
  simp [githubWebhook, hm, hv, hev, hpr]

/-- C9 witness: the theorem at the concrete labeled pull request. -/
theorem c9_irrelevant_pr_action_witness :
    verifyGitHubSignature (fun _ _ => ("aa")) ("raw") c9Request.signature
      ("dev-secret") = true ∧
    (githubWebhook (fun _ _ => ("aa")) (fun _ => ("raw")) ("dev-secret")
        ("job-1") c9Request emptyIntake).1.jobs = emptyIntake.jobs ∧
    (githubWebhook (fun _ _ => ("aa")) (fun _ => ("raw")) ("dev-secret")
        ("job-1") c9Request emptyIntake).2 =
      { status := 200, success := some true,
        message := ("Webhook received but no job created") } := by
  have h := c9_irrelevant_pr_action_no_job (fun _ _ => ("aa"))
    (fun _ => ("raw")) ("dev-secret") ("job-1") c9Request emptyIntake rfl
    (by decide) rfl
    (by
      intro a ha
      have ha2 : a = ("labeled") := by
        have := ha.symm
        simpa [c9Request] using this
      rw [ha2]
      decide)
  exact ⟨by decide, h.1, h.2.2⟩

/-! ## Claim C10 -/

/-- C10: an accepted push event (ref ending in /main or /master) creates a
Job whose changedFiles list is the deduplicated union of the modified and
added lists over all commits of the payload: the list has no duplicates, and
a path is in it exactly when some commit modified or added it — in
particular a path appearing only in removed lists is never included. -/
theorem c10_changed_files_union (fresh : String) (payload : WebhookPayload)
    (st : IntakeState) (r : String)
    (href : payload.ref = some r)
    (hmain : strEndsWith r ("/main") = true ∨
             strEndsWith r ("/master") = true) :
    (handlePushEvent fresh payload st).2 = true ∧
    (∃ job : Job,
       (handlePushEvent fresh payload st).1.jobs = st.jobs ++ [(fresh, job)] ∧
       job.changedFiles =
         some (collectChangedFiles (payload.commits.getD []))) ∧
    (collectChangedFiles (payload.commits.getD [])).Nodup ∧
    (∀ x, x ∈ collectChangedFiles (payload.commits.getD []) ↔
       ∃ c ∈ payload.commits.getD [], x ∈ c.modified ∨ x ∈ c.added) := by
  have hr0 : r ≠ ("") := by
    rintro rfl
    revert hmain
    decide
  have hcond : (strEndsWith r ("/main") || strEndsWith r ("/master")) = true := by
    rcases hmain with h | h <;> simp [h]
  refine ⟨?_, ?_, nodup_collectChangedFiles _,
    fun x => mem_collectChangedFiles _ x⟩
  · simp [handlePushEvent, href, hr0, hcond]
  · refine ⟨{ jobType := ("push-analysis"), status := ("queued"),
              repoFullName := payload.repository.fullName,
              repoId := toString payload.repository.id,
              ref := some r, beforeSha := payload.beforeSha,
              afterSha := payload.afterSha,
              changedFiles :=
                some (collectChangedFiles (payload.commits.getD [])),
              commitCount := some (payload.commits.getD []).length },
      ?_, rfl⟩
    simp [handlePushEvent, href, hr0, hcond]

/-- C10 witness: the theorem at the concrete two-commit push; the
deduplicated union has a.ts once and never contains the removed-only
path. -/
theorem c10_changed_files_witness :
    (handlePushEvent ("job-1") c10Payload emptyIntake).2 = true ∧
    (collectChangedFiles (c10Payload.commits.getD [])).Nodup ∧
    (((("gone.ts")) ∈ collectChangedFiles (c10Payload.commits.getD [])) ↔
      ∃ c ∈ c10Payload.commits.getD [],
        (("gone.ts")) ∈ c.modified ∨ (("gone.ts")) ∈ c.added) := by
  have h := c10_changed_files_union ("job-1") c10Payload emptyIntake
    ("refs/heads/main") rfl (Or.inl (by decide))
  exact ⟨h.1, h.2.2.1, h.2.2.2 ("gone.ts")⟩

theorem analyzeRepoWorker_ingestion_run {α : Type}
    (processPR : String → Option Nat → Except String α)
    (processPush : String → List String → α)
    (processIngestion : String → Except String α)
    (fresh jid repoId : String) (pn : Option Nat) (cf : Option (List String))
    (jobs : List (String × Job)) (rs : List (String × ResultDoc α)) (j0 : Job)
    (a : α) (hjid : jid ≠ ("")) (hget : jobsGet jobs jid = some j0)
    (hing : processIngestion j0.repoFullName = Except.ok a) :
    analyzeRepoWorker processPR processPush processIngestion fresh
      { jobId := jid, jobType := ("initial-ingestion"), repoId := repoId,
        prNumber := pn, changedFiles := cf }
      { jobs := jobs, jobResults := rs } =
    ({ jobs := jobsAdjust
          (jobsAdjust jobs jid (fun j => { j with status := ("in-progress") }))
          jid (fun j => { j with status := ("completed"),
                                 resultId := some fresh }),
       jobResults := rs ++ [(fresh,
         { jobId := jid, repoId := repoId, prNumber := pn,
           status := ("completed"), analysis := a })] },
     Except.ok ()) := by
  have hget1 : jobsGet
      (jobsAdjust jobs jid (fun j => { j with status := ("in-progress") }))
      jid = some { j0 with status := ("in-progress") } :=
    jobsGet_jobsAdjust_self jobs jid _ j0 hget
  have hok1 : jobsUpdate jobs jid
      (fun j => { j with status := ("in-progress") }) =
      Except.ok (jobsAdjust jobs jid
        (fun j => { j with status := ("in-progress") })) :=
    jobsUpdate_of_get jobs jid _ j0 hget
  have hok2 : jobsUpdate
      (jobsAdjust jobs jid (fun j => { j with status := ("in-progress") }))
      jid (fun j => { j with status := ("completed"),
                             resultId := some fresh }) =
      Except.ok (jobsAdjust
        (jobsAdjust jobs jid (fun j => { j with status := ("in-progress") }))
        jid (fun j => { j with status := ("completed"),
                               resultId := some fresh })) :=
    jobsUpdate_of_get _ jid _ _ hget1
  simp [analyzeRepoWorker, routeJob, hjid, hok1, hget1, hok2, hing]

/-! ## Claim C7 -/

/-- C7: for a job over N files to analyze where the analysis of one file
throws, the per-file failure is caught, in both routines that analyze files.
For a push-analysis job the result lists exactly the analyses of the other
N-1 files (in order), the written Result document carries those analyses, and
the Job still ends with status completed, not failed; and likewise for an
initial-ingestion job (with the file list within the 50-file cap so every
file is attempted): the result carries the other N-1 analyses, analyzedFiles
is N-1, and the Job ends completed. -/
theorem c7_partial_failure_isolated
    (analyzeFile : String → String → Except String FileAnalysis)
    (gen : String → List FileAnalysis → String)
    (readFile : String → String → Except String String)
    (genO genA : String → List FileAnalysis → String)
    (repo lp sha cbad : String) (xs ys : List String) (bad m m2 : String)
    (jid repoId fresh : String) (pn : Option Nat) (j0 : Job)
    (hbad : analyzeFile bad (generateMockFileContent bad) = Except.error m)
    (hok : ∀ f ∈ xs ++ ys, (pushAnalyzeStep analyzeFile f).isSome = true)
    (hbadRead : readFile lp bad = Except.ok cbad)
    (hbadI : analyzeFile bad cbad = Except.error m2)
    (hokI : ∀ f ∈ xs ++ ys,
      (ingestStep readFile analyzeFile lp f).isSome = true)
    (hlen50 : (xs ++ bad :: ys).length ≤ 50)
    (hjid : jid ≠ ("")) :
    (processPushAnalysis analyzeFile gen repo (xs ++ bad :: ys)).files =
      (xs ++ ys).filterMap (pushAnalyzeStep analyzeFile) ∧
    (processPushAnalysis analyzeFile gen repo (xs ++ bad :: ys)).files.length =
      xs.length + ys.length ∧
    (jobsGet (analyzeRepoWorker (fun _ _ => Except.error m)
        (processPushAnalysis analyzeFile gen) (fun _ => Except.error m) fresh
        { jobId := jid, jobType := ("push-analysis"), repoId := repoId,
          prNumber := pn, changedFiles := some (xs ++ bad :: ys) }
        { jobs := [(jid, j0)], jobResults := [] }).1.jobs jid).map
      Job.status = some ("completed") ∧
    (analyzeRepoWorker (fun _ _ => Except.error m)
        (processPushAnalysis analyzeFile gen) (fun _ => Except.error m) fresh
        { jobId := jid, jobType := ("push-analysis"), repoId := repoId,
          prNumber := pn, changedFiles := some (xs ++ bad :: ys) }
        { jobs := [(jid, j0)], jobResults := [] }).1.jobResults.map
      (fun q => q.2.analysis.files) =
      [(xs ++ ys).filterMap (pushAnalyzeStep analyzeFile)] ∧
    (processInitialIngestion readFile analyzeFile genO genA repo lp sha
      (xs ++ bad :: ys)).files =
      (xs ++ ys).filterMap (ingestStep readFile analyzeFile lp) ∧
    (processInitialIngestion readFile analyzeFile genO genA repo lp sha
      (xs ++ bad :: ys)).analyzedFiles = xs.length + ys.length ∧
    (jobsGet (analyzeRepoWorker (fun _ _ => Except.error m2)
        (fun r cfl =>
          processInitialIngestion readFile analyzeFile genO genA r lp sha cfl)
        (fun r => Except.ok
          (processInitialIngestion readFile analyzeFile genO genA r lp sha
            (xs ++ bad :: ys))) fresh
        { jobId := jid, jobType := ("initial-ingestion"), repoId := repoId,
          prNumber := pn, changedFiles := none }
        { jobs := [(jid, j0)], jobResults := [] }).1.jobs jid).map
      Job.status = some ("completed") ∧
    (analyzeRepoWorker (fun _ _ => Except.error m2)
        (fun r cfl =>
          processInitialIngestion readFile analyzeFile genO genA r lp sha cfl)
        (fun r => Except.ok
          (processInitialIngestion readFile analyzeFile genO genA r lp sha
            (xs ++ bad :: ys))) fresh
        { jobId := jid, jobType := ("initial-ingestion"), repoId := repoId,
          prNumber := pn, changedFiles := none }
        { jobs := [(jid, j0)], jobResults := [] }).1.jobResults.map
      (fun q => q.2.analysis.files) =
      [(xs ++ ys).filterMap (ingestStep readFile analyzeFile lp)] := by
  have hstep : pushAnalyzeStep analyzeFile bad = none := by
    simp only [pushAnalyzeStep, hbad]
    rfl
  have hfiles : (xs ++ bad :: ys).filterMap (pushAnalyzeStep analyzeFile) =
      (xs ++ ys).filterMap (pushAnalyzeStep analyzeFile) := by
    simp [List.filterMap_append, List.filterMap_cons, hstep]
  have hlen : ((xs ++ ys).filterMap (pushAnalyzeStep analyzeFile)).length =
      xs.length + ys.length := by
    rw [filterMap_length_of_isSome _ _ hok]
    simp
  have hrun := analyzeRepoWorker_push_run (fun _ _ => Except.error m)
    (processPushAnalysis analyzeFile gen) (fun _ => Except.error m) fresh
    jid repoId pn (some (xs ++ bad :: ys)) [(jid, j0)] [] j0 hjid
    (jobsGet_singleton _ _)
  have hget2 := jobsGet_jobsAdjust_self _ jid
    (fun j => { j with status := ("completed"), resultId := some fresh })
    { j0 with status := ("in-progress") }
    (jobsGet_jobsAdjust_self [(jid, j0)] jid
      (fun j => { j with status := ("in-progress") }) j0
      (jobsGet_singleton _ _))
  have hstepI : ingestStep readFile analyzeFile lp bad = none := by
    simp only [ingestStep, hbadRead, hbadI]
    rfl
  have htake : (xs ++ bad :: ys).take 50 = xs ++ bad :: ys :=
    List.take_of_length_le hlen50
  have hfilesI : (xs ++ bad :: ys).filterMap
      (ingestStep readFile analyzeFile lp) =
      (xs ++ ys).filterMap (ingestStep readFile analyzeFile lp) := by
    simp [List.filterMap_append, List.filterMap_cons, hstepI]
  have hlenI : ((xs ++ ys).filterMap
      (ingestStep readFile analyzeFile lp)).length =
      xs.length + ys.length := by
    rw [filterMap_length_of_isSome _ _ hokI]
    simp
  have hrunI := analyzeRepoWorker_ingestion_run (fun _ _ => Except.error m2)
    (fun r cfl =>
      processInitialIngestion readFile analyzeFile genO genA r lp sha cfl)
    (fun r => Except.ok
      (processInitialIngestion readFile analyzeFile genO genA r lp sha
        (xs ++ bad :: ys))) fresh jid repoId pn none [(jid, j0)] [] j0
    (processInitialIngestion readFile analyzeFile genO genA j0.repoFullName
      lp sha (xs ++ bad :: ys)) hjid (jobsGet_singleton _ _) rfl
  refine ⟨?_, ?_, ?_, ?_, ?_, ?_, ?_, ?_⟩
  · exact hfiles
  · show (List.filterMap (pushAnalyzeStep analyzeFile)
      (xs ++ bad :: ys)).length = xs.length + ys.length
    rw [hfiles]
    exact hlen
  · rw [hrun]
    rw [hget2]
    rfl
  · rw [hrun]
    simp only [List.nil_append, List.map_cons, List.map_nil]
    show [List.filterMap (pushAnalyzeStep analyzeFile) (xs ++ bad :: ys)] =
      [List.filterMap (pushAnalyzeStep analyzeFile) (xs ++ ys)]
    rw [hfiles]
  · show List.filterMap (ingestStep readFile analyzeFile lp)
      ((xs ++ bad :: ys).take 50) =
      List.filterMap (ingestStep readFile analyzeFile lp) (xs ++ ys)
    rw [htake]
    exact hfilesI
  · show (List.filterMap (ingestStep readFile analyzeFile lp)
      ((xs ++ bad :: ys).take 50)).length = xs.length + ys.length
    rw [htake, hfilesI]
    exact hlenI
  · rw [hrunI]
    rw [hget2]
    rfl
  · rw [hrunI]
    simp only [List.nil_append, List.map_cons, List.map_nil]
    show [List.filterMap (ingestStep readFile analyzeFile lp)
      ((xs ++ bad :: ys).take 50)] =
      [List.filterMap (ingestStep readFile analyzeFile lp) (xs ++ ys)]
    rw [htake, hfilesI]

/-- C7 witness: the theorem at three concrete files of which the middle one
throws, for both a push-analysis and an initial-ingestion job: both other
analyses survive and each job completes. -/
theorem c7_partial_failure_witness :
    c7Analyze ("bad.ts") (generateMockFileContent ("bad.ts")) =
      Except.error ("boom") ∧
    (processPushAnalysis c7Analyze (fun _ _ => ("doc")) ("octo/app")
      [("a.ts"), ("bad.ts"), ("c.ts")]).files.length = 2 ∧
    (jobsGet (analyzeRepoWorker (fun _ _ => Except.error ("boom"))
        (processPushAnalysis c7Analyze (fun _ _ => ("doc")))
        (fun _ => Except.error ("boom")) ("result-1")
        { jobId := ("job-1"), jobType := ("push-analysis"), repoId := ("1"),
          prNumber := none,
          changedFiles := some [("a.ts"), ("bad.ts"), ("c.ts")] }
        { jobs := [(("job-1"), c7Job)], jobResults := [] }).1.jobs
      ("job-1")).map Job.status = some ("completed") ∧
    (processInitialIngestion (fun _ fp => Except.ok fp) c7Analyze
      (fun _ _ => ("doc")) (fun _ _ => ("doc")) ("octo/app") ("/tmp/repo")
      ("sha0") [("a.ts"), ("bad.ts"), ("c.ts")]).analyzedFiles = 2 ∧
    (jobsGet (analyzeRepoWorker (fun _ _ => Except.error ("boom"))
        (fun r cfl => processInitialIngestion (fun _ fp => Except.ok fp)
          c7Analyze (fun _ _ => ("doc")) (fun _ _ => ("doc")) r ("/tmp/repo")
          ("sha0") cfl)
        (fun r => Except.ok (processInitialIngestion
          (fun _ fp => Except.ok fp) c7Analyze (fun _ _ => ("doc"))
          (fun _ _ => ("doc")) r ("/tmp/repo") ("sha0")
          [("a.ts"), ("bad.ts"), ("c.ts")])) ("result-1")
        { jobId := ("job-1"), jobType := ("initial-ingestion"),
          repoId := ("1"), prNumber := none, changedFiles := none }
        { jobs := [(("job-1"), c7Job)], jobResults := [] }).1.jobs
      ("job-1")).map Job.status = some ("completed") := by
  have h := c7_partial_failure_isolated c7Analyze (fun _ _ => ("doc"))
    (fun _ fp => Except.ok fp) (fun _ _ => ("doc")) (fun _ _ => ("doc"))
    ("octo/app") ("/tmp/repo") ("sha0") ("bad.ts") [("a.ts")] [("c.ts")]
    ("bad.ts") ("boom") ("boom") ("job-1") ("1") ("result-1") none c7Job
    rfl (by decide) rfl rfl (by decide) (by decide) (by decide)
  exact ⟨rfl, h.2.1, h.2.2.1, h.2.2.2.2.2.1, h.2.2.2.2.2.2.1⟩

/-! ## Claim C8 -/

/-- C8: an initial-ingestion job over a snapshot enumerating the given file
list analyzes exactly the first 50 files — a prefix truncation, not a
sample — and the result records totalFiles as the full enumerated count,
distinct from analyzedFiles, which is 50 when every analyzed file
succeeds. -/
theorem c8_ingestion_cap
    (readFile : String → String → Except String String)
    (analyzeFile : String → String → Except String FileAnalysis)
    (genO genA : String → List FileAnalysis → String)
    (repo lp sha : String) (files : List String) (g : String → FileAnalysis)
    (h50 : 50 ≤ files.length)
    (hok : ∀ f ∈ files, ingestStep readFile analyzeFile lp f = some (g f)) :
    (processInitialIngestion readFile analyzeFile genO genA repo lp sha
      files).totalFiles = files.length ∧
    (processInitialIngestion readFile analyzeFile genO genA repo lp sha
      files).analyzedFiles = 50 ∧
    (processInitialIngestion readFile analyzeFile genO genA repo lp sha
      files).files = (files.take 50).map g := by
  have hok50 : ∀ f ∈ files.take 50,
      ingestStep readFile analyzeFile lp f = some (g f) :=
    fun f hf => hok f (List.take_subset _ _ hf)
  have hmap := filterMap_eq_map_of_forall (ingestStep readFile analyzeFile lp)
    g (files.take 50) hok50
  refine ⟨rfl, ?_, ?_⟩
  · simp [processInitialIngestion, hmap, List.length_take,
      Nat.min_eq_left h50]
  · simp [processInitialIngestion, hmap]

/-- C8 witness: the cap theorem over the 75-file snapshot: totalFiles is 75
and analyzedFiles is 50, recorded distinctly. -/
theorem c8_ingestion_cap_witness :
    c8Files.length = 75 ∧
    (processInitialIngestion (fun _ fp => Except.ok fp)
      (fun fp _ => Except.ok (c8Analysis fp)) (fun _ _ => ("doc"))
      (fun _ _ => ("doc")) ("octo/app") ("/tmp/repo") ("sha0")
      c8Files).totalFiles = 75 ∧
    (processInitialIngestion (fun _ fp => Except.ok fp)
      (fun fp _ => Except.ok (c8Analysis fp)) (fun _ _ => ("doc"))
      (fun _ _ => ("doc")) ("octo/app") ("/tmp/repo") ("sha0")
      c8Files).analyzedFiles = 50 := by
  have h := c8_ingestion_cap (fun _ fp => Except.ok fp)
    (fun fp _ => Except.ok (c8Analysis fp)) (fun _ _ => ("doc"))
    (fun _ _ => ("doc")) ("octo/app") ("/tmp/repo") ("sha0") c8Files
    c8Analysis (by decide) (by decide)
  refine ⟨by decide, ?_, h.2.1⟩
  rw [h.1]
  decide
